import Mathlib

/-!
Verification of the spaced-practice scheduler and chapter record model of
`maths_revision` (src/app.py), shallowly embedded in Lean.

Conventions of the embedding:
* Calendar dates are day numbers (`Int`); `timedelta(days = n)` is `+ n`.
* `accuracy` values are rationals (`ℚ`), matching the stored
  `round(correct/questions*100, 2)` floats exactly (two-decimal values).
* Python's stringly typed `status` field stays a `String`.
* For the raw-schema normalizer (`ensure_chapter_fields`) a field that is
  absent from the dict or present with value `None` is modelled as `none`:
  the code treats the two alike (`key not in chapter or chapter[key] is None`).
* `lecture_dates` holds the results of `parse_date` on each stored entry:
  `none` for an unparseable string, `some d` for a parsed date.
-/

namespace MathsRevision

/-- A practice session record (element of `practice_sessions`),
as appended by the Log Practice flow in `main`. -/
structure Session where
  date : Int
  questions_attempted : Int
  correct : Int
  accuracy : ℚ
  notes : Option String
deriving Repr, DecidableEq

/-- A fully populated chapter, the shape guaranteed after
`ensure_chapter_fields` has run (plus the spec-only
`sheet_completed_at_session` field, which the code never writes). -/
structure Chapter where
  chapter_name : String
  subject : String
  total_lectures_watched : Int
  lecture_dates : List (Option Int)
  first_lecture_date : Option Int
  sheet_total : Int
  questions_completed_total : Int
  practice_sessions : List Session
  current_sheet_index : Int
  status : String
  maintenance_stage : Int
  next_practice_date : Option Int
  sheet_completed_at_session : Option Int
deriving Repr, DecidableEq

/-- `spacing_days` (src/app.py:185-190). -/
def spacing_days (accuracy : ℚ) : Int :=
  if 80 < accuracy then 9
  else if 60 ≤ accuracy then 4
  else 2

/-- `sheet_progress` (src/app.py:193-198): completed/total clamped to 1,
or 0 when no sheet is configured. -/
def sheet_progress (c : Chapter) : ℚ :=
  if c.sheet_total ≤ 0 then 0
  else min ((c.questions_completed_total : ℚ) / (c.sheet_total : ℚ)) 1

/-- `sheet_completed` (src/app.py:201-204). -/
def sheet_completed (c : Chapter) : Bool :=
  decide (0 < c.sheet_total) && decide (c.sheet_total ≤ c.questions_completed_total)

/-- `update_status_after_session` (src/app.py:207-219), invoked after the
new session has been appended and `questions_completed_total` updated. -/
def update_status_after_session (c : Chapter) (accuracy : ℚ) : Chapter :=
  if c.status = "maintenance" ∧ accuracy < 65 then
    { c with status := "active", maintenance_stage := 0 }
  else if 3 ≤ c.practice_sessions.length ∧ 80 ≤ accuracy ∧ (7 / 10 : ℚ) ≤ sheet_progress c then
    { c with status := "maintenance", maintenance_stage := 0 }
  else if c.status = "learning" then
    { c with status := "active" }
  else c

/-- `set_next_practice_date` (src/app.py:221-236), invoked after the status
update with the updated chapter. -/
def set_next_practice_date (c : Chapter) (accuracy : ℚ) (today : Int) : Chapter :=
  if c.status = "maintenance" ∧ sheet_completed c = true then
    if c.maintenance_stage = 0 then
      { c with next_practice_date := some (today + 15), maintenance_stage := 1 }
    else if c.maintenance_stage = 1 then
      { c with next_practice_date := some (today + 30), maintenance_stage := 2 }
    else
      { c with next_practice_date := none }
  else
    { c with next_practice_date := some (today + spacing_days accuracy) }

/-- One logged-session scheduling step as performed by the Log Practice flow
(src/app.py:514-515): status update followed by next-date computation. -/
def session_step (c : Chapter) (accuracy : ℚ) (today : Int) : Chapter :=
  set_next_practice_date (update_status_after_session c accuracy) accuracy today

/-- Adjacent-pair scan of `has_consecutive_lecture_days`
(src/app.py:166-169): some adjacent pair of the (sorted) list differs by
exactly one day. -/
def consecutive_scan : List Int → Bool
  | a :: b :: rest => decide (b - a = 1) || consecutive_scan (b :: rest)
  | _ => false

/-- `has_consecutive_lecture_days` (src/app.py:161-169): parse the stored
lecture dates, drop failures, sort, and scan adjacent pairs for a one-day
gap. -/
def has_consecutive_lecture_days (c : Chapter) : Bool :=
  consecutive_scan ((c.lecture_dates.filterMap id).mergeSort (fun a b => a ≤ b))

/-- `practice_unlocks` (src/app.py:172-182). -/
def practice_unlocks (c : Chapter) (today : Int) : Bool :=
  if c.practice_sessions ≠ [] then true
  else if has_consecutive_lecture_days c then true
  else if 3 ≤ c.total_lectures_watched then true
  else
    match c.first_lecture_date with
    | some f => decide (5 ≤ today - f)
    | none => false

/-- A generic well-formed session used to populate concrete chapters. -/
def sessionEx : Session :=
  { date := 0, questions_attempted := 20, correct := 17, accuracy := 85, notes := none }

/-- An active chapter with 3 sessions, `sheet_total = 100` and
`questions_completed_total = 70` (sheet progress exactly 0.7). -/
def chapterSeventy : Chapter :=
  { chapter_name := "Algebra", subject := "Maths", total_lectures_watched := 5,
    lecture_dates := [], first_lecture_date := none, sheet_total := 100,
    questions_completed_total := 70,
    practice_sessions := [sessionEx, sessionEx, sessionEx], current_sheet_index := 3,
    status := "active", maintenance_stage := 0, next_practice_date := none,
    sheet_completed_at_session := none }

/-- An active chapter whose 20-question sheet was finished at session 3
(per the spec's stamp semantics) and which now has a 4th session logged. -/
def chapterPostSheet : Chapter :=
  { chapter_name := "Trigonometry", subject := "Maths", total_lectures_watched := 6,
    lecture_dates := [], first_lecture_date := none, sheet_total := 20,
    questions_completed_total := 20,
    practice_sessions := [sessionEx, sessionEx, sessionEx, sessionEx],
    current_sheet_index := 4, status := "active", maintenance_stage := 0,
    next_practice_date := none, sheet_completed_at_session := some 3 }

/-- A maintenance chapter with its sheet fully completed, stage 0. -/
def chapterMaintDone : Chapter :=
  { chapterSeventy with status := "maintenance", questions_completed_total := 100 }

/-- A maintenance chapter whose sheet is not yet completed (progress 0.7). -/
def chapterMaintIncomplete : Chapter :=
  { chapterSeventy with status := "maintenance" }

/-- A stage-2 maintenance chapter still meeting the promotion conditions
(3 sessions, sheet progress 0.7). -/
def chapterStage2 : Chapter :=
  { chapterSeventy with status := "maintenance", maintenance_stage := 2 }

/-- A stage-1 maintenance chapter with an incomplete sheet. -/
def chapterStage1 : Chapter :=
  { chapterSeventy with status := "maintenance", maintenance_stage := 1 }

/-- The stage bookkeeping invariant maintained by the scheduler: the stage
is one of 0, 1, 2, and a chapter outside maintenance has stage 0. -/
def stage_wf (c : Chapter) : Prop :=
  (c.status ≠ "maintenance" → c.maintenance_stage = 0) ∧
  0 ≤ c.maintenance_stage ∧ c.maintenance_stage ≤ 2

/-- A chapter as loaded from storage, the input of `ensure_chapter_fields`
(src/app.py:51-77). A field is `none` when its key is absent from the dict
or present with value `None`: the code treats the two alike
(`key not in chapter or chapter[key] is None`, src/app.py:68). Fields are
listed in the order of the code's `defaults` dict; the spec-only
`sheet_completed_at_session` (never referenced by the code) comes last.
The code's `isinstance(practice_sessions, list)` repair is vacuous here
because the field is typed. -/
structure RawChapter where
  chapter_name : Option String
  total_lectures_watched : Option Int
  practice_sessions : Option (List Session)
  status : Option String
  next_practice_date : Option Int
  current_sheet_index : Option Int
  lecture_dates : Option (List (Option Int))
  first_lecture_date : Option Int
  maintenance_stage : Option Int
  subject : Option String
  sheet_total : Option Int
  questions_completed_total : Option Int
  sheet_completed_at_session : Option Int
deriving Repr, DecidableEq

/-- `ensure_chapter_fields` (src/app.py:51-77): fill each key of the
`defaults` dict that is absent or null with its default (for
`next_practice_date` and `first_lecture_date` the default is null, so the
value stays `none` but the change flag is still set), then rewrite a
falsy (empty) `subject` to `"Maths"`; return the chapter and whether
anything was assigned. -/
def ensure_chapter_fields (c : RawChapter) : RawChapter × Bool :=
  let changed :=
    c.chapter_name.isNone || c.total_lectures_watched.isNone ||
    c.practice_sessions.isNone || c.status.isNone ||
    c.next_practice_date.isNone || c.current_sheet_index.isNone ||
    c.lecture_dates.isNone || c.first_lecture_date.isNone ||
    c.maintenance_stage.isNone || c.subject.isNone ||
    c.sheet_total.isNone || c.questions_completed_total.isNone
  let subj := c.subject.getD "Maths"
  let subjEmpty := decide (subj = "")
  ({ chapter_name := some (c.chapter_name.getD "")
     total_lectures_watched := some (c.total_lectures_watched.getD 0)
     practice_sessions := some (c.practice_sessions.getD [])
     status := some (c.status.getD "learning")
     next_practice_date := c.next_practice_date
     current_sheet_index := some (c.current_sheet_index.getD 0)
     lecture_dates := some (c.lecture_dates.getD [])
     first_lecture_date := c.first_lecture_date
     maintenance_stage := some (c.maintenance_stage.getD 0)
     subject := some (if subjEmpty then "Maths" else subj)
     sheet_total := some (c.sheet_total.getD 0)
     questions_completed_total := some (c.questions_completed_total.getD 0)
     sheet_completed_at_session := c.sheet_completed_at_session },
   changed || subjEmpty)

/-- A raw chapter with every field present and non-null except the
spec-only stamp, but with an empty-string subject. -/
def rawSubjectEmpty : RawChapter :=
  { chapter_name := some "Algebra", total_lectures_watched := some 0,
    practice_sessions := some [], status := some "learning",
    next_practice_date := some 3, current_sheet_index := some 0,
    lecture_dates := some [], first_lecture_date := some 0,
    maintenance_stage := some 0, subject := some "", sheet_total := some 0,
    questions_completed_total := some 0, sheet_completed_at_session := none }

/-- A raw chapter with every field absent/null. -/
def rawEmpty : RawChapter :=
  { chapter_name := none, total_lectures_watched := none,
    practice_sessions := none, status := none, next_practice_date := none,
    current_sheet_index := none, lecture_dates := none,
    first_lecture_date := none, maintenance_stage := none, subject := none,
    sheet_total := none, questions_completed_total := none,
    sheet_completed_at_session := none }

/-- `get_chapter` (src/app.py:120-124): first chapter whose name equals
`name` exactly (Python `==` on strings, case-sensitive). -/
def get_chapter (chapters : List Chapter) (name : String) : Option Chapter :=
  match chapters with
  | [] => none
  | c :: rest => if c.chapter_name = name then some c else get_chapter rest name

/-- The duplicate/empty-name guard of the add-chapter form
(src/app.py:332-335): the submission is rejected iff the stripped name is
empty or `get_chapter` finds an existing chapter of that exact name. -/
def add_chapter_rejected (chapters : List Chapter) (name : String) : Bool :=
  decide (name = "") || (get_chapter chapters name).isSome

/-- Python's `str.lower()` as used for name collation in `sort_chapters`
(src/app.py:240): lower-case every character. -/
def lower_str (s : String) : String :=
  ⟨s.data.map Char.toLower⟩

theorem sheet_progress_chapterSeventy : sheet_progress chapterSeventy = 7 / 10 := by
  norm_num [sheet_progress, chapterSeventy]

/-- C6: `spacing_days` is the exact step function 9 / 4 / 2 with the stated
bands; the boundary values 60, 60.01, 80, 80.01 map to 4, 4, 4, 9. -/
theorem spacing_days_bands (a : ℚ) :
    (80 < a → spacing_days a = 9) ∧
    (60 ≤ a ∧ a ≤ 80 → spacing_days a = 4) ∧
    (a < 60 → spacing_days a = 2) ∧
    spacing_days 60 = 4 ∧ spacing_days (6001 / 100) = 4 ∧
    spacing_days 80 = 4 ∧ spacing_days (8001 / 100) = 9 := by
  refine ⟨fun h => ?_, fun h => ?_, fun h => ?_, by norm_num [spacing_days],
    by norm_num [spacing_days], by norm_num [spacing_days], by norm_num [spacing_days]⟩
  · simp [spacing_days, h]
  · rw [spacing_days, if_neg (by linarith), if_pos h.1]
  · rw [spacing_days, if_neg (by linarith), if_neg (by linarith)]

/-- Witness for C6: instantiating `spacing_days_bands` at 90, 70 and 50. -/
theorem spacing_days_bands_witness :
    spacing_days 90 = 9 ∧ spacing_days 70 = 4 ∧ spacing_days 50 = 2 :=
  ⟨(spacing_days_bands 90).1 (by norm_num),
   (spacing_days_bands 70).2.1 ⟨by norm_num, by norm_num⟩,
   (spacing_days_bands 50).2.2.1 (by norm_num)⟩

/-- C5: a maintenance chapter logging a session with accuracy below 65 is
demoted to `active` with `maintenance_stage` reset to 0, regardless of the
prior stage and of every other field; the regression branch is the first
check of `update_status_after_session`, so it takes priority over
promotion. -/
theorem maintenance_regression (c : Chapter) (acc : ℚ)
    (hm : c.status = "maintenance") (ha : acc < 65) :
    update_status_after_session c acc =
      { c with status := "active", maintenance_stage := 0 } := by
  unfold update_status_after_session
  rw [if_pos ⟨hm, ha⟩]

/-- Witness for C5: a stage-2 maintenance chapter demoted by a 50% session. -/
theorem maintenance_regression_witness :
    update_status_after_session
        { chapterSeventy with status := "maintenance", maintenance_stage := 2 } 50 =
      { chapterSeventy with status := "active", maintenance_stage := 0 } :=
  maintenance_regression
    { chapterSeventy with status := "maintenance", maintenance_stage := 2 } 50
    rfl (by norm_num)

/-- C1 (amended): for a chapter not already in maintenance,
`update_status_after_session` promotes to maintenance (status
`maintenance`, stage 0) exactly when session count ≥ 3, accuracy ≥ 80 and
sheet progress ≥ 0.7 all hold; dropping any one of the three prevents
promotion. The code's sheet-progress threshold is 0.7, not the 0.75 the
claim states. -/
theorem promotion_iff (c : Chapter) (acc : ℚ) (h : c.status ≠ "maintenance") :
    update_status_after_session c acc =
      { c with status := "maintenance", maintenance_stage := 0 } ↔
    3 ≤ c.practice_sessions.length ∧ 80 ≤ acc ∧ (7 / 10 : ℚ) ≤ sheet_progress c := by
  unfold update_status_after_session
  rw [if_neg (fun hx => h hx.1)]
  by_cases hp : 3 ≤ c.practice_sessions.length ∧ 80 ≤ acc ∧ (7 / 10 : ℚ) ≤ sheet_progress c
  · rw [if_pos hp]
    exact iff_of_true rfl hp
  · rw [if_neg hp]
    refine iff_of_false ?_ hp
    by_cases hl : c.status = "learning"
    · rw [if_pos hl]
      intro he
      have hs := congrArg Chapter.status he
      simp only at hs
      exact absurd hs (by decide)
    · rw [if_neg hl]
      intro he
      have hs := congrArg Chapter.status he
      simp only at hs
      exact h hs

/-- Witness for C1 (amended): `chapterSeventy` (3 sessions, progress 0.7)
with an 85% session is promoted. -/
theorem promotion_iff_witness :
    update_status_after_session chapterSeventy 85 =
      { chapterSeventy with status := "maintenance", maintenance_stage := 0 } :=
  (promotion_iff chapterSeventy 85 (by decide)).mpr
    ⟨by decide, by norm_num, by rw [sheet_progress_chapterSeventy]⟩

/-- Counterexample to C1 as stated: `chapterSeventy` has sheet progress
0.7, strictly below the claimed 0.75 threshold, yet an 85% session (count
3, accuracy ≥ 80) promotes it to maintenance — so a condition below the
claim's threshold does not prevent promotion. -/
theorem promotion_below_three_quarters :
    sheet_progress chapterSeventy < 75 / 100 ∧
    3 ≤ chapterSeventy.practice_sessions.length ∧
    chapterSeventy.status = "active" ∧
    (update_status_after_session chapterSeventy 85).status = "maintenance" := by
  refine ⟨?_, by decide, rfl, ?_⟩
  · rw [sheet_progress_chapterSeventy]; norm_num
  · have h : update_status_after_session chapterSeventy 85 =
        { chapterSeventy with status := "maintenance", maintenance_stage := 0 } := by
      unfold update_status_after_session
      rw [if_neg (by decide), if_pos ⟨by decide, by norm_num,
        by rw [sheet_progress_chapterSeventy]⟩]
    rw [h]

/-- Counterexample to C2: the code keeps no sheet-completion stamp and no
post-completion session gate. With `sheet_total = 20` completed at
session 3 (stamp `some 3` present as the claim posits), the 4th session at
85% — only 1 session since the stamp — is promoted to maintenance anyway,
and the stamp field is not written by the update. -/
theorem promotion_ignores_completion_stamp :
    chapterPostSheet.sheet_total = 20 ∧
    chapterPostSheet.questions_completed_total = 20 ∧
    chapterPostSheet.practice_sessions.length = 4 ∧
    chapterPostSheet.sheet_completed_at_session = some 3 ∧
    (update_status_after_session chapterPostSheet 85).status = "maintenance" := by
  refine ⟨rfl, rfl, rfl, rfl, ?_⟩
  have h : update_status_after_session chapterPostSheet 85 =
      { chapterPostSheet with status := "maintenance", maintenance_stage := 0 } := by
    unfold update_status_after_session
    rw [if_neg (by decide), if_pos ⟨by decide, by norm_num,
      by norm_num [sheet_progress, chapterPostSheet]⟩]
  rw [h]

/-- C2 (amended): the scheduling step never writes
`sheet_completed_at_session` — neither the status update nor the next-date
computation touches it, so no completion stamp is recorded and no
post-completion gate restricts promotion. -/
theorem sheet_stamp_never_written (c : Chapter) (acc : ℚ) (today : Int) :
    (update_status_after_session c acc).sheet_completed_at_session =
      c.sheet_completed_at_session ∧
    (session_step c acc today).sheet_completed_at_session =
      c.sheet_completed_at_session := by
  have h1 : ∀ d : Chapter, ∀ a : ℚ,
      (update_status_after_session d a).sheet_completed_at_session =
        d.sheet_completed_at_session := by
    intro d a
    unfold update_status_after_session
    split_ifs <;> rfl
  have h2 : ∀ d : Chapter, ∀ a : ℚ, ∀ t : Int,
      (set_next_practice_date d a t).sheet_completed_at_session =
        d.sheet_completed_at_session := by
    intro d a t
    unfold set_next_practice_date
    split_ifs <;> rfl
  exact ⟨h1 c acc, by rw [session_step, h2, h1]⟩

/-- Counterexample to C3: a maintenance chapter at stage 0 whose sheet is
not completed (70 of 100) gets `today + spacingDays(accuracy)` — here
`today + 9` for an 85% session — instead of the claimed `today + 15`, and
its stage is not advanced: the maintenance cycle is not computed solely
from `maintenance_stage`. -/
theorem maintenance_date_not_stage_only :
    chapterMaintIncomplete.status = "maintenance" ∧
    chapterMaintIncomplete.maintenance_stage = 0 ∧
    (set_next_practice_date chapterMaintIncomplete 85 0).next_practice_date = some 9 ∧
    (set_next_practice_date chapterMaintIncomplete 85 0).maintenance_stage = 0 := by
  have h : set_next_practice_date chapterMaintIncomplete 85 0 =
      { chapterMaintIncomplete with
          next_practice_date := some (0 + spacing_days 85) } := by
    unfold set_next_practice_date
    rw [if_neg (by decide)]
  refine ⟨rfl, rfl, ?_, ?_⟩
  · rw [h]
    norm_num [spacing_days]
  · rw [h]
    rfl

/-- C3 (amended): `set_next_practice_date` runs the stage cycle
(15 days then 30 days then none, advancing the stage) only when the status
is `maintenance` AND the sheet is completed; in every other case —
including a maintenance chapter with an incomplete sheet — it assigns
`today + spacingDays(accuracy)`. -/
theorem set_next_practice_date_spec (c : Chapter) (acc : ℚ) (today : Int) :
    (c.status = "maintenance" → sheet_completed c = true →
      ((c.maintenance_stage = 0 →
        set_next_practice_date c acc today =
          { c with next_practice_date := some (today + 15), maintenance_stage := 1 }) ∧
       (c.maintenance_stage = 1 →
        set_next_practice_date c acc today =
          { c with next_practice_date := some (today + 30), maintenance_stage := 2 }) ∧
       (c.maintenance_stage ≠ 0 → c.maintenance_stage ≠ 1 →
        set_next_practice_date c acc today =
          { c with next_practice_date := none }))) ∧
    ((c.status = "maintenance" → sheet_completed c = false) →
      set_next_practice_date c acc today =
        { c with next_practice_date := some (today + spacing_days acc) }) := by
  constructor
  · intro hm hdone
    refine ⟨fun h0 => ?_, fun h1 => ?_, fun h0 h1 => ?_⟩
    · unfold set_next_practice_date
      rw [if_pos ⟨hm, hdone⟩, if_pos h0]
    · unfold set_next_practice_date
      rw [if_pos ⟨hm, hdone⟩, if_neg (by rw [h1]; decide), if_pos h1]
    · unfold set_next_practice_date
      rw [if_pos ⟨hm, hdone⟩, if_neg h0, if_neg h1]
  · intro hnot
    unfold set_next_practice_date
    rw [if_neg ?_]
    rintro ⟨hm, hdone⟩
    rw [hnot hm] at hdone
    exact Bool.false_ne_true hdone

/-- Witness for C3 (amended): a completed-sheet maintenance chapter at
stage 0 gets `today + 15` and stage 1; an incomplete-sheet maintenance
chapter gets `today + spacingDays`. -/
theorem set_next_practice_date_spec_witness :
    set_next_practice_date chapterMaintDone 85 100 =
      { chapterMaintDone with next_practice_date := some 115, maintenance_stage := 1 } ∧
    set_next_practice_date chapterMaintIncomplete 85 100 =
      { chapterMaintIncomplete with next_practice_date := some 109 } := by
  constructor
  · have h := ((set_next_practice_date_spec chapterMaintDone 85 100).1 rfl rfl).1 rfl
    norm_num at h
    exact h
  · have h := (set_next_practice_date_spec chapterMaintIncomplete 85 100).2
      (fun _ => by decide)
    norm_num [spacing_days] at h
    exact h

/-- Counterexample to C4: a stage-2 maintenance chapter that still meets
the promotion conditions is re-promoted, which moves its stage backward
from 2 to 0 while the status stays `maintenance` — both after the status
update and after the full logged-session step. -/
theorem stage_moves_backward_in_maintenance :
    chapterStage2.status = "maintenance" ∧ chapterStage2.maintenance_stage = 2 ∧
    (update_status_after_session chapterStage2 85).status = "maintenance" ∧
    (update_status_after_session chapterStage2 85).maintenance_stage = 0 ∧
    (session_step chapterStage2 85 0).status = "maintenance" ∧
    (session_step chapterStage2 85 0).maintenance_stage = 0 := by
  have h : update_status_after_session chapterStage2 85 =
      { chapterStage2 with status := "maintenance", maintenance_stage := 0 } := by
    unfold update_status_after_session
    rw [if_neg (by decide), if_pos ⟨by decide, by norm_num,
      by norm_num [sheet_progress, chapterStage2, chapterSeventy]⟩]
  have h2 : session_step chapterStage2 85 0 =
      { chapterStage2 with
          status := "maintenance"
          maintenance_stage := 0
          next_practice_date := some (0 + spacing_days 85) } := by
    rw [session_step, h]
    unfold set_next_practice_date
    rw [if_neg (by decide)]
  refine ⟨rfl, rfl, ?_, ?_, ?_, ?_⟩
  · rw [h]
  · rw [h]
  · rw [h2]
  · rw [h2]

/-- C4 (amended): across a logged-session step, `maintenance_stage` stays
in {0, 1, 2}, a chapter outside maintenance always carries stage 0 (so
leaving maintenance resets it), and the stage never moves backward while
the chapter stays in maintenance *unless* the promotion branch re-fires
(count ≥ 3, accuracy ≥ 80, progress ≥ 0.7), which resets the stage to 0
even for a chapter already in maintenance. -/
theorem update_status_status (c : Chapter) (acc : ℚ) :
    (update_status_after_session c acc).status =
      if c.status = "maintenance" ∧ acc < 65 then "active"
      else if 3 ≤ c.practice_sessions.length ∧ 80 ≤ acc ∧
          (7 / 10 : ℚ) ≤ sheet_progress c then "maintenance"
      else if c.status = "learning" then "active"
      else c.status := by
  unfold update_status_after_session
  split_ifs <;> rfl

theorem update_status_stage (c : Chapter) (acc : ℚ) :
    (update_status_after_session c acc).maintenance_stage =
      if c.status = "maintenance" ∧ acc < 65 then 0
      else if 3 ≤ c.practice_sessions.length ∧ 80 ≤ acc ∧
          (7 / 10 : ℚ) ≤ sheet_progress c then 0
      else c.maintenance_stage := by
  unfold update_status_after_session
  split_ifs <;> rfl

theorem set_next_status (c : Chapter) (acc : ℚ) (t : Int) :
    (set_next_practice_date c acc t).status = c.status := by
  unfold set_next_practice_date
  split_ifs <;> rfl

theorem set_next_stage (c : Chapter) (acc : ℚ) (t : Int) :
    (set_next_practice_date c acc t).maintenance_stage =
      if c.status = "maintenance" ∧ sheet_completed c = true then
        if c.maintenance_stage = 0 then 1
        else if c.maintenance_stage = 1 then 2
        else c.maintenance_stage
      else c.maintenance_stage := by
  unfold set_next_practice_date
  split_ifs <;> rfl

theorem maintenance_stage_invariant (c : Chapter) (acc : ℚ) (today : Int)
    (h : stage_wf c) :
    stage_wf (session_step c acc today) ∧
    (c.status = "maintenance" → (session_step c acc today).status = "maintenance" →
      ¬(3 ≤ c.practice_sessions.length ∧ 80 ≤ acc ∧ (7 / 10 : ℚ) ≤ sheet_progress c) →
      c.maintenance_stage ≤ (session_step c acc today).maintenance_stage) := by
  obtain ⟨hz, hb⟩ := h
  have hstep_status : (session_step c acc today).status =
      (update_status_after_session c acc).status :=
    set_next_status (update_status_after_session c acc) acc today
  have hstep_stage : (session_step c acc today).maintenance_stage =
      if (update_status_after_session c acc).status = "maintenance" ∧
          sheet_completed (update_status_after_session c acc) = true then
        if (update_status_after_session c acc).maintenance_stage = 0 then 1
        else if (update_status_after_session c acc).maintenance_stage = 1 then 2
        else (update_status_after_session c acc).maintenance_stage
      else (update_status_after_session c acc).maintenance_stage :=
    set_next_stage (update_status_after_session c acc) acc today
  have hu_status := update_status_status c acc
  have hu_stage := update_status_stage c acc
  by_cases hreg : c.status = "maintenance" ∧ acc < 65
  · rw [if_pos hreg] at hu_status hu_stage
    have hne : ¬((update_status_after_session c acc).status = "maintenance" ∧
        sheet_completed (update_status_after_session c acc) = true) := by
      rw [hu_status]
      rintro ⟨hx, -⟩
      exact absurd hx (by decide)
    rw [if_neg hne, hu_stage] at hstep_stage
    refine ⟨⟨fun _ => hstep_stage, by omega⟩, fun _ hm _ => ?_⟩
    rw [hstep_status, hu_status] at hm
    exact absurd hm (by decide)
  · rw [if_neg hreg] at hu_status hu_stage
    by_cases hpro : 3 ≤ c.practice_sessions.length ∧ 80 ≤ acc ∧
        (7 / 10 : ℚ) ≤ sheet_progress c
    · rw [if_pos hpro] at hu_status hu_stage
      refine ⟨⟨fun hne => absurd (hstep_status.trans hu_status) hne, ?_⟩,
        fun _ _ hn => absurd hpro hn⟩
      by_cases hdone : sheet_completed (update_status_after_session c acc) = true
      · rw [if_pos ⟨hu_status, hdone⟩, hu_stage, if_pos rfl] at hstep_stage
        omega
      · rw [if_neg (fun hx => hdone hx.2), hu_stage] at hstep_stage
        omega
    · rw [if_neg hpro] at hu_status hu_stage
      by_cases hl : c.status = "learning"
      · rw [if_pos hl] at hu_status
        have hcz : c.maintenance_stage = 0 := hz (by rw [hl]; decide)
        have hne : ¬((update_status_after_session c acc).status = "maintenance" ∧
            sheet_completed (update_status_after_session c acc) = true) := by
          rw [hu_status]
          rintro ⟨hx, -⟩
          exact absurd hx (by decide)
        rw [if_neg hne, hu_stage] at hstep_stage
        refine ⟨⟨fun _ => by omega, by omega⟩, fun hcm _ _ => ?_⟩
        rw [hl] at hcm
        exact absurd hcm (by decide)
      · rw [if_neg hl] at hu_status
        by_cases hm : c.status = "maintenance"
        · by_cases hdone : sheet_completed (update_status_after_session c acc) = true
          · rw [if_pos ⟨hu_status.trans hm, hdone⟩, hu_stage] at hstep_stage
            refine ⟨⟨fun hne => absurd (hstep_status.trans (hu_status.trans hm)) hne,
              ?_⟩, fun _ _ _ => ?_⟩ <;> split_ifs at hstep_stage <;> omega
          · rw [if_neg (fun hx => hdone hx.2), hu_stage] at hstep_stage
            exact ⟨⟨fun hne =>
                absurd (hstep_status.trans (hu_status.trans hm)) hne, by omega⟩,
              fun _ _ _ => by omega⟩
        · have hcz : c.maintenance_stage = 0 := hz hm
          have hne : ¬((update_status_after_session c acc).status = "maintenance" ∧
              sheet_completed (update_status_after_session c acc) = true) :=
            fun hx => hm (hu_status.symm.trans hx.1)
          rw [if_neg hne, hu_stage] at hstep_stage
          exact ⟨⟨fun _ => by omega, by omega⟩, fun hcm _ _ => absurd hcm hm⟩

/-- Witness for C4 (amended): the invariant applied to a stage-1
maintenance chapter (incomplete sheet, 75% session: no regression, no
re-promotion) — the stage is preserved and stays well-formed. -/
theorem maintenance_stage_invariant_witness :
    stage_wf (session_step chapterStage1 75 0) ∧
    (1 : Int) ≤ (session_step chapterStage1 75 0).maintenance_stage := by
  have h := maintenance_stage_invariant chapterStage1 75 0
    ⟨fun hs => absurd rfl hs, by decide, by decide⟩
  refine ⟨h.1, ?_⟩
  have hstep : (session_step chapterStage1 75 0).status = "maintenance" := by
    unfold session_step update_status_after_session
    rw [if_neg (by rintro ⟨-, hacc⟩; norm_num at hacc),
      if_neg (by rintro ⟨-, hacc, -⟩; norm_num at hacc),
      if_neg (by decide)]
    unfold set_next_practice_date
    rw [if_neg (by rintro ⟨-, hdone⟩; revert hdone; decide)]
    rfl
  exact h.2 rfl hstep (by rintro ⟨-, hacc, -⟩; norm_num at hacc)

theorem consecutive_scan_sorted (l : List Int) (hs : l.Sorted (· ≤ ·)) :
    consecutive_scan l = true ↔ ∃ x ∈ l, ∃ y ∈ l, y - x = 1 := by
  induction l with
  | nil => simp [consecutive_scan]
  | cons a t ih =>
    cases t with
    | nil =>
      refine iff_of_false (by simp [consecutive_scan]) ?_
      rintro ⟨x, hx, y, hy, hxy⟩
      rw [List.mem_singleton] at hx hy
      subst hx
      subst hy
      omega
    | cons b t2 =>
      rw [List.sorted_cons] at hs
      obtain ⟨ha, hs2⟩ := hs
      have ih2 := ih hs2
      show (decide (b - a = 1) || consecutive_scan (b :: t2)) = true ↔ _
      rw [Bool.or_eq_true, decide_eq_true_eq, ih2]
      constructor
      · rintro (hab | ⟨x, hx, y, hy, hxy⟩)
        · exact ⟨a, List.mem_cons_self a _, b,
            List.mem_cons_of_mem a (List.mem_cons_self b _), hab⟩
        · exact ⟨x, List.mem_cons_of_mem a hx, y, List.mem_cons_of_mem a hy, hxy⟩
      · rintro ⟨x, hx, y, hy, hxy⟩
        rw [List.mem_cons] at hx hy
        rcases hx with hx | hx
        · rcases hy with hy | hy
          · subst hx; subst hy; omega
          · subst hx
            have hxb : x ≤ b := ha b (List.mem_cons_self b _)
            have hby : b ≤ y := by
              rw [List.sorted_cons] at hs2
              rw [List.mem_cons] at hy
              rcases hy with hy | hy
              · omega
              · exact hs2.1 y hy
            by_cases hb : b - x = 1
            · exact Or.inl hb
            · refine Or.inr ⟨b, List.mem_cons_self b _, y, hy, by omega⟩
        · rcases hy with hy | hy
          · subst hy
            have hxy2 : y ≤ x := ha x hx
            omega
          · exact Or.inr ⟨x, hx, y, hy, hxy⟩

theorem has_consecutive_iff (c : Chapter) :
    has_consecutive_lecture_days c = true ↔
      ∃ x ∈ c.lecture_dates.filterMap id, ∃ y ∈ c.lecture_dates.filterMap id,
        y - x = 1 := by
  unfold has_consecutive_lecture_days
  rw [consecutive_scan_sorted _ (List.sorted_mergeSort' _)]
  simp only [List.mem_mergeSort]

/-- C7: `practice_unlocks` returns true exactly when the chapter has at
least one practice session, or its parsed lecture dates contain two dates
exactly one day apart, or at least 3 lectures are watched, or a first
lecture date is set at least 5 days before `today`; in particular a
chapter with one lecture 4 days ago, no sessions, fewer than 3 lectures
and no consecutive days yields false. -/
theorem practice_unlocks_iff (c : Chapter) (today : Int) :
    practice_unlocks c today = true ↔
      c.practice_sessions ≠ [] ∨
      (∃ x ∈ c.lecture_dates.filterMap id, ∃ y ∈ c.lecture_dates.filterMap id,
        y - x = 1) ∨
      3 ≤ c.total_lectures_watched ∨
      (∃ f, c.first_lecture_date = some f ∧ 5 ≤ today - f) := by
  unfold practice_unlocks
  split_ifs with h1 h2 h3
  · exact iff_of_true rfl (Or.inl h1)
  · exact iff_of_true rfl (Or.inr (Or.inl ((has_consecutive_iff c).mp h2)))
  · exact iff_of_true rfl (Or.inr (Or.inr (Or.inl h3)))
  · cases hf : c.first_lecture_date with
    | none =>
      refine iff_of_false (by simp) ?_
      rintro (h | h | h | ⟨f, hf2, -⟩)
      · exact h1 h
      · exact h2 ((has_consecutive_iff c).mpr h)
      · exact h3 h
      · exact Option.noConfusion hf2
    | some f =>
      constructor
      · intro h
        exact Or.inr (Or.inr (Or.inr ⟨f, rfl, of_decide_eq_true h⟩))
      · rintro (h | h | h | ⟨f2, hf2, h5⟩)
        · exact absurd h h1
        · exact absurd ((has_consecutive_iff c).mpr h) h2
        · exact absurd h h3
        · rw [Option.some.injEq] at hf2
          subst hf2
          exact decide_eq_true h5

/-- Counterexample to C8: a chapter whose `subject` is present and
non-null (the empty string) has it rewritten to `"Maths"` by
`ensure_chapter_fields` — normalization does alter a present, non-null
field — and `sheet_completed_at_session`, although missing, is not
filled. -/
theorem normalize_alters_present_subject :
    rawSubjectEmpty.subject = some "" ∧
    (ensure_chapter_fields rawSubjectEmpty).1.subject = some "Maths" ∧
    (ensure_chapter_fields rawSubjectEmpty).2 = true ∧
    rawSubjectEmpty.sheet_completed_at_session = none ∧
    (ensure_chapter_fields rawSubjectEmpty).1.sheet_completed_at_session = none :=
  ⟨rfl, rfl, rfl, rfl, rfl⟩

/-- C8 (amended): `ensure_chapter_fields` fills each absent-or-null field
of the code's default set — which omits `sheet_completed_at_session` —
with its default and keeps present non-null values, except that a
present-but-empty `subject` is rewritten to `"Maths"`; the nullable-default
fields `next_practice_date` and `first_lecture_date` are left as they are
(filling null with null); the change flag is true exactly when some
default-set key was absent/null (even when the assigned default equals the
old null value) or the subject was empty. -/
theorem ensure_chapter_fields_spec (c : RawChapter) :
    (c.chapter_name = none → (ensure_chapter_fields c).1.chapter_name = some "") ∧
    (∀ v, c.chapter_name = some v → (ensure_chapter_fields c).1.chapter_name = some v) ∧
    (c.total_lectures_watched = none →
      (ensure_chapter_fields c).1.total_lectures_watched = some 0) ∧
    (∀ v, c.total_lectures_watched = some v →
      (ensure_chapter_fields c).1.total_lectures_watched = some v) ∧
    (c.practice_sessions = none →
      (ensure_chapter_fields c).1.practice_sessions = some []) ∧
    (∀ v, c.practice_sessions = some v →
      (ensure_chapter_fields c).1.practice_sessions = some v) ∧
    (c.status = none → (ensure_chapter_fields c).1.status = some "learning") ∧
    (∀ v, c.status = some v → (ensure_chapter_fields c).1.status = some v) ∧
    (c.current_sheet_index = none →
      (ensure_chapter_fields c).1.current_sheet_index = some 0) ∧
    (∀ v, c.current_sheet_index = some v →
      (ensure_chapter_fields c).1.current_sheet_index = some v) ∧
    (c.lecture_dates = none → (ensure_chapter_fields c).1.lecture_dates = some []) ∧
    (∀ v, c.lecture_dates = some v →
      (ensure_chapter_fields c).1.lecture_dates = some v) ∧
    (c.maintenance_stage = none →
      (ensure_chapter_fields c).1.maintenance_stage = some 0) ∧
    (∀ v, c.maintenance_stage = some v →
      (ensure_chapter_fields c).1.maintenance_stage = some v) ∧
    (c.sheet_total = none → (ensure_chapter_fields c).1.sheet_total = some 0) ∧
    (∀ v, c.sheet_total = some v → (ensure_chapter_fields c).1.sheet_total = some v) ∧
    (c.questions_completed_total = none →
      (ensure_chapter_fields c).1.questions_completed_total = some 0) ∧
    (∀ v, c.questions_completed_total = some v →
      (ensure_chapter_fields c).1.questions_completed_total = some v) ∧
    (c.subject = none → (ensure_chapter_fields c).1.subject = some "Maths") ∧
    (c.subject = some "" → (ensure_chapter_fields c).1.subject = some "Maths") ∧
    (∀ v, c.subject = some v → v ≠ "" →
      (ensure_chapter_fields c).1.subject = some v) ∧
    ((ensure_chapter_fields c).1.next_practice_date = c.next_practice_date) ∧
    ((ensure_chapter_fields c).1.first_lecture_date = c.first_lecture_date) ∧
    ((ensure_chapter_fields c).1.sheet_completed_at_session =
      c.sheet_completed_at_session) ∧
    ((ensure_chapter_fields c).2 = true ↔
      c.chapter_name = none ∨ c.total_lectures_watched = none ∨
      c.practice_sessions = none ∨ c.status = none ∨
      c.next_practice_date = none ∨ c.current_sheet_index = none ∨
      c.lecture_dates = none ∨ c.first_lecture_date = none ∨
      c.maintenance_stage = none ∨ c.subject = none ∨ c.sheet_total = none ∨
      c.questions_completed_total = none ∨ c.subject = some "") := by
  refine ⟨fun h => by simp [ensure_chapter_fields, h],
    fun v h => by simp [ensure_chapter_fields, h],
    fun h => by simp [ensure_chapter_fields, h],
    fun v h => by simp [ensure_chapter_fields, h],
    fun h => by simp [ensure_chapter_fields, h],
    fun v h => by simp [ensure_chapter_fields, h],
    fun h => by simp [ensure_chapter_fields, h],
    fun v h => by simp [ensure_chapter_fields, h],
    fun h => by simp [ensure_chapter_fields, h],
    fun v h => by simp [ensure_chapter_fields, h],
    fun h => by simp [ensure_chapter_fields, h],
    fun v h => by simp [ensure_chapter_fields, h],
    fun h => by simp [ensure_chapter_fields, h],
    fun v h => by simp [ensure_chapter_fields, h],
    fun h => by simp [ensure_chapter_fields, h],
    fun v h => by simp [ensure_chapter_fields, h],
    fun h => by simp [ensure_chapter_fields, h],
    fun v h => by simp [ensure_chapter_fields, h],
    fun h => by simp [ensure_chapter_fields, h],
    fun h => by simp [ensure_chapter_fields, h],
    fun v h hne => by simp [ensure_chapter_fields, h, hne],
    rfl, rfl, rfl, ?_⟩
  show (_ || decide (c.subject.getD "Maths" = "")) = true ↔ _
  rcases hsub : c.subject with _ | s
  · simp [ensure_chapter_fields, Option.isNone_iff_eq_none, hsub]
  · by_cases hse : s = ""
    · subst hse
      simp [ensure_chapter_fields, Option.isNone_iff_eq_none, hsub]
    · simp [ensure_chapter_fields, Option.isNone_iff_eq_none, hsub, hse]
      tauto

/-- Witness for C8 (amended): the fully-absent chapter gets the default
status and subject and reports a change; a present non-empty subject is
kept. -/
theorem ensure_chapter_fields_spec_witness :
    (ensure_chapter_fields rawEmpty).1.status = some "learning" ∧
    (ensure_chapter_fields rawEmpty).1.subject = some "Maths" ∧
    (ensure_chapter_fields rawEmpty).2 = true ∧
    (ensure_chapter_fields rawSubjectEmpty).1.chapter_name = some "Algebra" := by
  obtain ⟨-, -, -, -, -, -, hst, -, -, -, -, -, -, -, -, -, -, -, hsub, -, -, -, -, -,
    hflag⟩ := ensure_chapter_fields_spec rawEmpty
  obtain ⟨-, hname, -⟩ := ensure_chapter_fields_spec rawSubjectEmpty
  exact ⟨hst rfl, hsub rfl, hflag.mpr (Or.inl rfl), hname "Algebra" rfl⟩

/-- Counterexample to C9: normalizing the normalization of the all-absent
chapter still reports that a field was changed (the null-default keys
`next_practice_date`/`first_lecture_date` re-trigger the `is None` branch
on every run), so the second application does not report "no change". -/
theorem second_normalize_reports_change :
    (ensure_chapter_fields (ensure_chapter_fields rawEmpty).1).2 = true :=
  rfl

/-- C9 (amended): `ensure_chapter_fields` is idempotent on the chapter
value — a second application changes no field — but its change flag on the
second run is true exactly when `next_practice_date` or
`first_lecture_date` is null (their null defaults re-trigger the
absent-or-null branch), not always false as claimed. -/
theorem normalize_idempotent_value (c : RawChapter) :
    (ensure_chapter_fields (ensure_chapter_fields c).1).1 =
      (ensure_chapter_fields c).1 ∧
    (ensure_chapter_fields (ensure_chapter_fields c).1).2 =
      (c.next_practice_date.isNone || c.first_lecture_date.isNone) := by
  constructor
  · rcases hsub : c.subject with _ | s
    · simp [ensure_chapter_fields, hsub]
    · by_cases hse : s = ""
      · subst hse
        simp [ensure_chapter_fields, hsub]
      · simp [ensure_chapter_fields, hsub, hse]
  · rcases hsub : c.subject with _ | s
    · simp [ensure_chapter_fields, hsub]
    · by_cases hse : s = ""
      · subst hse
        simp [ensure_chapter_fields, hsub]
      · simp [ensure_chapter_fields, hsub, hse]

/-- Counterexample to C10: with an existing chapter named `"Algebra"`, the
name `"algebra"` matches it case-insensitively, yet `get_chapter` finds
nothing and the add-chapter guard does not reject it — the duplicate check
is case-sensitive. -/
theorem duplicate_check_case_sensitive :
    lower_str "algebra" = lower_str "Algebra" ∧
    chapterSeventy.chapter_name = "Algebra" ∧
    get_chapter [chapterSeventy] "algebra" = none ∧
    add_chapter_rejected [chapterSeventy] "algebra" = false := by
  refine ⟨by decide, rfl, ?_, ?_⟩ <;> rfl

theorem get_chapter_isSome_iff (chapters : List Chapter) (name : String) :
    (get_chapter chapters name).isSome = true ↔
      ∃ c ∈ chapters, c.chapter_name = name := by
  induction chapters with
  | nil => simp [get_chapter]
  | cons c rest ih =>
    unfold get_chapter
    by_cases h : c.chapter_name = name
    · simp [h]
    · simp [h, ih]

/-- C10 (amended): the duplicate-name guard is case-sensitive: the
add-chapter submission is rejected exactly when the name is empty or some
existing chapter carries that exact name (Python `==`); lower-casing is
used only for sorting, so names that differ only in case are accepted as
distinct chapters. -/
theorem add_chapter_rejected_iff (chapters : List Chapter) (name : String) :
    add_chapter_rejected chapters name = true ↔
      name = "" ∨ ∃ c ∈ chapters, c.chapter_name = name := by
  unfold add_chapter_rejected
  rw [Bool.or_eq_true, decide_eq_true_eq, get_chapter_isSome_iff]

end MathsRevision
